import Mathlib

/-!
Verification of the GoCardless webhook handler
(`payments/payment_gateways/doctype/gocardless_settings/__init__.py`).

The Python module is shallowly embedded below.  JSON values decoded by
`json.loads` become the inductive `Json`; Python exceptions become the
`PyErr` type; the Frappe document store, the installed-app list and the
GoCardless REST resources reachable from the handler become an explicit
`World` record; every externally visible call (`frappe.db.set_value`,
`add_comment`, `db_set`, `log_error`, journal `insert`/`submit`, ...) is
recorded as an `Effect` appended to the world's trace.  Stateful Python
functions become functions `World → World × Except PyErr α`: the returned
world is the state at normal return or at the point the exception escaped.

The HMAC-SHA256 hex digest (`hmac`/`hashlib`) and the JSON decoder
(`json.loads`) are Python standard-library primitives; the embedding takes
them as function parameters (`hmacHex`, `jsonLoads`) and proves its
theorems for every choice of those parameters, recording separately the
facts that single theorems need about them (e.g. hex digests are never the
empty string).
-/

namespace GocardlessWebhooks

/-- JSON values, as returned by `json.loads`: objects are modelled as
association lists in key order (duplicate keys cannot survive parsing). -/
inductive Json where
  | null
  | bool (b : Bool)
  | num (n : Int)
  | str (s : String)
  | arr (elems : List Json)
  | obj (fields : List (String × Json))

/-- Python exceptions that can escape the code under study. -/
inductive PyErr where
  | keyError (key : String)
  | typeError
  | attributeError
  | authenticationError
  | jsonDecodeError
  | doesNotExist (doctype : String)
  | apiError (resource : String)
deriving Repr, DecidableEq

/-- First binding of `key` in an association list (Python dict lookup). -/
def lookupField : List (String × Json) → String → Option Json
  | [], _ => none
  | (k, v) :: rest, key => if k = key then some v else lookupField rest key

/-- Python `d[key]` on a decoded JSON value: `KeyError` on a dict missing
the key, `TypeError` when the value is not subscriptable by a string. -/
def pySubscript (j : Json) (key : String) : Except PyErr Json :=
  match j with
  | .obj fields =>
      match lookupField fields key with
      | some v => .ok v
      | none => .error (.keyError key)
  | _ => .error .typeError

/-- Python `d.get(key)` (default `None`): `AttributeError` when the value
is not a dict. -/
def pyGetAttr (j : Json) (key : String) : Except PyErr (Option Json) :=
  match j with
  | .obj fields => .ok (lookupField fields key)
  | _ => .error .attributeError

/-- Python `d.get(key, default)`: `AttributeError` when the value is not a
dict. -/
def pyGetD (j : Json) (key : String) (default : Json) : Except PyErr Json :=
  match j with
  | .obj fields => .ok ((lookupField fields key).getD default)
  | _ => .error .attributeError

/-- Python truthiness of a decoded JSON value. -/
def Json.truthy : Json → Bool
  | .null => false
  | .bool b => b
  | .num n => n != 0
  | .str s => s != ""
  | .arr elems => !elems.isEmpty
  | .obj fields => !fields.isEmpty

/-- Python `x == "lit"` for a decoded JSON value against a string literal. -/
def Json.isStr : Json → String → Bool
  | .str s, t => s == t
  | _, _ => false

/-- Comparison `x == "lit"` where `x` came from `d.get(key)` and may be `None`. -/
def optIsStr : Option Json → String → Bool
  | some j, t => j.isStr t
  | none, _ => false

/-- Truthiness of a `d.get(key)` result (`None` is falsy). -/
def optTruthy : Option Json → Bool
  | some j => j.truthy
  | none => false

/-- Python `str.capitalize()`: first character upper-cased, rest lower-cased. -/
def pyCapitalize (s : String) : String :=
  match s.data with
  | [] => ""
  | c :: rest => String.mk (c.toUpper :: rest.map Char.toLower)

/-- Rendering of a scalar JSON value inside an f-string.  Composite values
are abbreviated; no verified claim inspects the rendered text of a
non-string value. -/
def pyStrScalar : Json → String
  | .str s => s
  | .num n => toString n
  | .bool b => if b then "True" else "False"
  | .null => "None"
  | .arr _ => "[...]"
  | .obj _ => "\x7b...\x7d"

/-- One journal-entry line of the payout journal (ERPNext `accounts` row).
`amount`/`fees` arithmetic is carried out in exact rationals; the Python
floats involved (minor-unit integers divided by 100) stand in a ratio the
claims compare only through `+` and `=`, where the embedding agrees. -/
structure JELine where
  account : Option String
  debit_in_account_currency : ℚ
  debit : ℚ
  credit : ℚ
  credit_in_account_currency : ℚ
deriving Repr, DecidableEq

/-- The `frappe.get_doc({...})` journal-entry document built by
`create_payout_journal`. -/
structure JournalEntry where
  doctype : String
  voucher_type : String
  posting_date : String
  cheque_date : String
  cheque_no : String
  accounts : List JELine
deriving Repr, DecidableEq

/-- Sum of the `debit` column of a journal entry. -/
def JournalEntry.totalDebit (je : JournalEntry) : ℚ :=
  (je.accounts.map JELine.debit).sum

/-- Sum of the `credit` column of a journal entry. -/
def JournalEntry.totalCredit (je : JournalEntry) : ℚ :=
  (je.accounts.map JELine.credit).sum

/-- Externally visible side effects of the handler, in execution order. -/
inductive Effect where
  | dbSetValue (doctype : String) (docname : Json) (field : String) (value : Int)
  | addComment (docname : String) (text : String) (commentBy : String) (commentEmail : String)
  | dbSet (docname : String) (field : String) (value : Json)
  | setAsPaid (docname : String)
  | setAsCancelled (docname : String)
  | insertJournal (je : JournalEntry)
  | submitJournal (je : JournalEntry)
  | logError (title : String) (payload : Json)
  | logErrorExc (title : String) (e : PyErr)

/-- A `Payment Request` document as far as the handler reads or writes it.
`hasFailedReasonField` records whether the deployed schema has the
ERPNext-v16 `failed_reason` column. -/
structure PRDoc where
  status : String
  hasFailedReasonField : Bool
  failed_reason : Option Json

/-- A `GoCardless Settings` document. -/
structure GoCardlessSettings where
  name : String
  use_sandbox : Bool
  fees_account : String
  webhooks_secret : Option String

/-- A `Bank Account` document as far as the payout handler reads it. -/
structure BankAccount where
  bank_account_no : String
  account : String

/-- A payout resource returned by the GoCardless API client
(`client.payouts.get`): amounts are minor-unit integers. -/
structure Payout where
  amount : Int
  deducted_fees : Int
  created_at : String
  arrival_date : String
  reference : String
  links_creditor_bank_account : String

/-- The explicit state of everything the module reads or writes: the
Frappe site (documents, installed apps, the webhook-secret cache slot) and
the GoCardless API resources the payout handler can fetch.  Document lists
are ordered most-recently-modified first, so `frappe.get_last_doc` is the
first match. -/
structure World where
  secretsCache : Option (List String)
  gocardlessSettings : List GoCardlessSettings
  installedApps : List String
  paymentRequests : List (String × PRDoc)
  paymentGateways : List (String × String)
  paymentGatewayAccounts : List (String × String)
  payouts : List (String × Payout)
  creditorBankAccounts : List (String × Option String)
  bankAccounts : List BankAccount
  trace : List Effect

/-- An inbound HTTP request: headers and the raw body bytes. -/
structure Request where
  headers : List (String × String)
  rawBody : List Nat

/-- First header with the given name (`frappe.get_request_header`). -/
def getHeader : List (String × String) → String → Option String
  | [], _ => none
  | (k, v) :: rest, key => if k = key then some v else getHeader rest key

/-- Value `d.webhooks_secret` kept by the list comprehension's truthiness filter. -/
def webhookSecretValue (d : GoCardlessSettings) : Option String :=
  match d.webhooks_secret with
  | some s => if s = "" then none else some s
  | none => none

/-- Function `get_webhook_keys`: return the cached secret list, else project the
non-empty `webhooks_secret` of every `GoCardless Settings` document, cache
and return it. -/
def get_webhook_keys (w : World) : World × List String :=
  match w.secretsCache with
  | some keys => (w, keys)
  | none =>
      let keys := w.gocardlessSettings.filterMap webhookSecretValue
      ({ w with secretsCache := some keys }, keys)

/-- Function `authenticate_signature`: false when the `Webhook-Signature` header is
absent or empty, else true exactly when some configured secret's
HMAC-SHA256 hex digest of the raw body equals the header
(`hmac.compare_digest` is constant-time string equality). -/
def authenticate_signature (hmacHex : String → List Nat → String)
    (r : Request) (w : World) : World × Bool :=
  match getHeader r.headers "Webhook-Signature" with
  | none => (w, false)
  | some received =>
      if received = "" then (w, false)
      else
        let (w', keys) := get_webhook_keys w
        (w', keys.any fun key => received == hmacHex key r.rawBody)

/-- Lookup `link["mandate"]` for one element of a `links` list. -/
def linkMandate (link : Json) : Except PyErr Json :=
  pySubscript link "mandate"

/-- The `mandates.append` loop over a `links` list: collects each
element's `"mandate"` entry in order, stopping at the first exception. -/
def collectMandates : List Json → Except PyErr (List Json)
  | [] => .ok []
  | link :: rest =>
      match linkMandate link with
      | .error e => .error e
      | .ok m =>
          match collectMandates rest with
          | .error e => .error e
          | .ok ms => .ok (m :: ms)

/-- Mandate ids extracted from `event["links"]`: every element's
`"mandate"` when the value is a list, otherwise the single
`links["mandate"]`. -/
def extractMandates (links : Json) : Except PyErr (List Json) :=
  match links with
  | .arr elems => collectMandates elems
  | other =>
      match pySubscript other "mandate" with
      | .error e => .error e
      | .ok m => .ok [m]

/-- The `disabled` flag chosen by `set_mandate_status`: `0` for the four
enabling actions, `1` otherwise. -/
def mandateDisabled (action : Json) : Int :=
  if action.isStr "pending_customer_approval" || action.isStr "pending_submission"
      || action.isStr "submitted" || action.isStr "active" then 0
  else 1

/-- Function `set_mandate_status`: extract the mandate id(s) from `event["links"]`,
compute the `disabled` flag from `event["action"]`, and write it on every
extracted `GoCardless Mandate`. -/
def set_mandate_status (event : Json) (w : World) : World × Except PyErr Unit :=
  match pySubscript event "links" with
  | .error e => (w, .error e)
  | .ok links =>
      match extractMandates links with
      | .error e => (w, .error e)
      | .ok mandates =>
          match pySubscript event "action" with
          | .error e => (w, .error e)
          | .ok action =>
              let disabled := mandateDisabled action
              ({ w with trace := w.trace ++ mandates.map fun m =>
                  .dbSetValue "GoCardless Mandate" m "disabled" disabled }, .ok ())

/-- First `Payment Request` document with the given name
(`frappe.get_doc("Payment Request", name)` succeeds iff this is `some`). -/
def lookupPR : List (String × PRDoc) → String → Option PRDoc
  | [], _ => none
  | (k, v) :: rest, key => if k = key then some v else lookupPR rest key

/-- Replace the binding of `key` (the document save visible to later reads). -/
def updatePR : List (String × PRDoc) → String → PRDoc → List (String × PRDoc)
  | [], _, _ => []
  | (k, v) :: rest, key, doc =>
      if k = key then (k, doc) :: rest else (k, v) :: updatePR rest key doc

/-- The `<strong>GoCardless Event: ...</strong>` comment piece: present
when `event_action` is truthy; `.capitalize()` on a non-string raises
`AttributeError`. -/
def actionCommentPiece (event_action : Option Json) : Except PyErr String :=
  match event_action with
  | none => .ok ""
  | some a =>
      if a.truthy then
        match a with
        | .str s => .ok ("<strong>GoCardless Event: <em>" ++ pyCapitalize s ++ "<em></strong>")
        | _ => .error .attributeError
      else .ok ""

/-- Operation `doc.db_set("status", value)`: field write on the document plus the
recorded store write. -/
def dbSetStatus (w : World) (name : String) (doc : PRDoc) (value : String) :
    World × PRDoc :=
  let doc' := { doc with status := value }
  ({ w with paymentRequests := updatePR w.paymentRequests name doc',
            trace := w.trace ++ [.dbSet name "status" (.str value)] }, doc')

/-- Modelled from the spec: ERPNext's `PaymentRequest.set_as_paid` (an
external collaborator, spec §4.5) — the record's canonical mark-paid
transition.  It sets `status` to `Paid`; its further downstream side
effects are represented by the recorded `setAsPaid` call. -/
def setAsPaidOp (w : World) (name : String) (doc : PRDoc) : World × PRDoc :=
  let doc' := { doc with status := "Paid" }
  ({ w with paymentRequests := updatePR w.paymentRequests name doc',
            trace := w.trace ++ [.setAsPaid name] }, doc')

/-- Modelled from the spec: ERPNext's `PaymentRequest.set_as_cancelled`
(an external collaborator, spec §4.5) — the canonical mark-cancelled
transition, setting `status` to `Cancelled`. -/
def setAsCancelledOp (w : World) (name : String) (doc : PRDoc) : World × PRDoc :=
  let doc' := { doc with status := "Cancelled" }
  ({ w with paymentRequests := updatePR w.paymentRequests name doc',
            trace := w.trace ++ [.setAsCancelled name] }, doc')

/-- Modelled from the spec: `doc.db_set("failed_reason", value)` against
the external record store.  The `failed_reason` column exists only on
newer (ERPNext v16+) schemas; writing a field absent from the record
schema raises a key lookup error (spec §4.5 and §7(d)), which the caller
catches. -/
def dbSetFailedReason (w : World) (name : String) (doc : PRDoc) (value : Json) :
    World × Except PyErr PRDoc :=
  if doc.hasFailedReasonField then
    let doc' := { doc with failed_reason := some value }
    ({ w with paymentRequests := updatePR w.paymentRequests name doc',
              trace := w.trace ++ [.dbSet name "failed_reason" value] }, .ok doc')
  else (w, .error (.keyError "failed_reason"))

/-- The `try: doc.db_set("failed_reason", event["details"]["description"])
except KeyError: pass` block of the `failed` branch: evaluate the argument
(`KeyError` possible at either subscript), then write the field. -/
def failedReasonAttempt (event : Json) (w : World) (name : String) (doc : PRDoc) :
    World × Except PyErr PRDoc :=
  match pySubscript event "details" with
  | .error e => (w, .error e)
  | .ok details =>
      match pySubscript details "description" with
      | .error e => (w, .error e)
      | .ok description => dbSetFailedReason w name doc description

/-- Pure prefix of `set_payment_request_status`: read the action,
description, payment link and target reference, and build the comment
string exactly as the four `comment +=` statements do. -/
def prPrelude (event : Json) :
    Except PyErr (Option Json × String × Option Json) :=
  match pyGetAttr event "action" with
  | .error e => .error e
  | .ok event_action =>
  match pyGetD event "details" (.obj []) with
  | .error e => .error e
  | .ok details =>
  match pyGetAttr details "description" with
  | .error e => .error e
  | .ok event_description =>
  match pyGetD event "links" (.obj []) with
  | .error e => .error e
  | .ok links =>
  match pyGetAttr links "payment" with
  | .error e => .error e
  | .ok payment_id =>
  match actionCommentPiece event_action with
  | .error e => .error e
  | .ok piece1 =>
  let comment0 := ""
  let comment1 := if optTruthy event_action then comment0 ++ piece1 else comment0
  let comment2 :=
    if optTruthy event_description then
      comment1 ++ ("<br>" ++ pyStrScalar ((event_description).getD .null))
    else comment1
  let comment3 :=
    if optTruthy payment_id then
      comment2 ++ ("<br><a href='https://manage.gocardless.com/payments/"
        ++ pyStrScalar ((payment_id).getD .null) ++ "'>View Payment</a>")
    else comment2
  match pyGetD event "resource_metadata" (.obj []) with
  | .error e => .error e
  | .ok rm =>
  match pyGetAttr rm "reference_document" with
  | .error e => .error e
  | .ok payment_request => .ok (event_action, comment3, payment_request)

/-- Function `set_payment_request_status`: build the comment, bail out when no
`reference_document` is given, load the `Payment Request`, append the
comment when non-empty, then run the four action-guarded transitions, the
`failed` branch wrapping its `failed_reason` write in `except KeyError`. -/
def set_payment_request_status (event : Json) (w : World) :
    World × Except PyErr Unit :=
  match prPrelude event with
  | .error e => (w, .error e)
  | .ok (event_action, comment, payment_request) =>
      if !optTruthy payment_request then (w, .ok ())
      else
        match payment_request with
        | some (.str name) =>
            (match lookupPR w.paymentRequests name with
             | none => (w, .error (.doesNotExist "Payment Request"))
             | some doc =>
                 let (w1, doc1) :=
                   if comment != "" then
                     ({ w with trace := w.trace ++
                         [.addComment name comment "GoCardless" "help@gocardless.com"] }, doc)
                   else (w, doc)
                 let (w2, doc2) :=
                   if optIsStr event_action "submitted" && doc1.status != "Initiated" then
                     dbSetStatus w1 name doc1 "Initiated"
                   else (w1, doc1)
                 let (w3, doc3) :=
                   if optIsStr event_action "confirmed" && doc2.status != "Paid" then
                     setAsPaidOp w2 name doc2
                   else (w2, doc2)
                 let (w4, doc4) :=
                   if optIsStr event_action "cancelled" && doc3.status != "Cancelled" then
                     setAsCancelledOp w3 name doc3
                   else (w3, doc3)
                 if optIsStr event_action "failed" && doc4.status != "Failed" then
                   let (w5, doc5) := dbSetStatus w4 name doc4 "Failed"
                   match failedReasonAttempt event w5 name doc5 with
                   | (w6, .ok _) => (w6, .ok ())
                   | (w6, .error (.keyError _)) => (w6, .ok ())
                   | (w6, .error e) => (w6, .error e)
                 else (w4, .ok ()))
        | _ => (w, .error .typeError)

/-- Query `frappe.get_last_doc("GoCardless Settings", filters={"use_sandbox": 0})`:
first (most recent) non-sandbox settings document, `DoesNotExistError`
when there is none. -/
def getLastGCSettings (w : World) : Except PyErr GoCardlessSettings :=
  match w.gocardlessSettings.find? (fun d => !d.use_sandbox) with
  | some d => .ok d
  | none => .error (.doesNotExist "GoCardless Settings")

/-- First binding in a generic string-keyed association list. -/
def lookupAssoc {α : Type} : List (String × α) → String → Option α
  | [], _ => none
  | (k, v) :: rest, key => if k = key then some v else lookupAssoc rest key

/-- Modelled from the spec: `dateutil.parser.parse(created_at).date()` —
the external date parser keeps only the calendar-date component of an
ISO-8601 timestamp (spec §4.6). -/
def parseDateOnly (s : String) : String :=
  String.mk (s.data.takeWhile (fun c => c ≠ 'T'))

/-- The record-store filter `{"bank_account_no": ["like", "%" + ending]}`:
a SQL `LIKE` match against a pattern anchored only at the end, i.e. the
stored account number ends with the given digits. -/
def likeEndsWith (value suffixDigits : String) : Bool :=
  suffixDigits.data.isSuffixOf value.data

/-- The journal-entry document literal built by `create_payout_journal`:
a debit of `amount` on the deposit account, a credit of `deducted_fees` on
the fees account, and a credit of `amount + deducted_fees` on the payment
account. -/
def payoutJournalEntry (arrival_date cheque_date cheque_no : String)
    (deposit_account fees_account : String) (payment_account : Option String)
    (amount deducted_fees : ℚ) : JournalEntry :=
  { doctype := "Journal Entry"
    voucher_type := "Journal Entry"
    posting_date := arrival_date
    cheque_date := cheque_date
    cheque_no := cheque_no
    accounts :=
      [ { account := some deposit_account
          debit_in_account_currency := amount
          debit := amount
          credit := 0
          credit_in_account_currency := 0 },
        { account := some fees_account
          debit_in_account_currency := 0
          debit := 0
          credit := deducted_fees
          credit_in_account_currency := deducted_fees },
        { account := payment_account
          debit_in_account_currency := 0
          debit := 0
          credit := amount + deducted_fees
          credit_in_account_currency := amount + deducted_fees } ] }

/-- Body of `create_payout_journal`'s `try` block: resolve the payout id,
the live settings, gateway and payment account, fetch the payout and its
creditor bank account from the API, resolve the matching local
`Bank Account`, convert the minor-unit amounts, and build, insert and
submit the three-line journal entry. -/
def create_payout_journal_attempt (event : Json) (w : World) :
    World × Except PyErr Unit :=
  let build : Except PyErr JournalEntry :=
    match pyGetAttr event "links" with
    | .error e => .error e
    | .ok none => .error .attributeError
    | .ok (some links) =>
    match pyGetAttr links "payout" with
    | .error e => .error e
    | .ok payout_id =>
    match getLastGCSettings w with
    | .error e => .error e
    | .ok gc_settings =>
    let payment_gateway :=
      (w.paymentGateways.find? (fun p => p.2 = gc_settings.name)).map Prod.fst
    let payment_account :=
      match payment_gateway with
      | some pg => (lookupAssoc w.paymentGatewayAccounts pg)
      | none => none
    match payout_id with
    | some (.str pid) =>
        (match lookupAssoc w.payouts pid with
         | none => .error (.apiError "payouts")
         | some payout =>
         match lookupAssoc w.creditorBankAccounts payout.links_creditor_bank_account with
         | none => .error (.apiError "creditor_bank_accounts")
         | some attr_ending =>
         match attr_ending with
         | none => .error .typeError
         | some account_number_ending =>
         match w.bankAccounts.find?
             (fun b => likeEndsWith b.bank_account_no account_number_ending) with
         | none => .error (.doesNotExist "Bank Account")
         | some bank_account =>
             let deposit_account := bank_account.account
             let fees_account := gc_settings.fees_account
             let amount : ℚ := (payout.amount : ℚ) / 100
             let deducted_fees : ℚ := (payout.deducted_fees : ℚ) / 100
             let created_at_date := parseDateOnly payout.created_at
             .ok (payoutJournalEntry payout.arrival_date created_at_date
                  payout.reference deposit_account fees_account payment_account
                  amount deducted_fees))
    | _ => .error (.apiError "payouts")
  match build with
  | .error e => (w, .error e)
  | .ok je =>
      ({ w with trace := w.trace ++ [.insertJournal je, .submitJournal je] }, .ok ())

/-- Function `create_payout_journal`: the whole body runs inside
`try ... except Exception as e: frappe.log_error(...)`, so every failure
is caught and logged and the function always returns normally. -/
def create_payout_journal (event : Json) (w : World) : World :=
  match create_payout_journal_attempt event w with
  | (w', .ok _) => w'
  | (w', .error e) =>
      { w' with trace := w'.trace ++
          [.logErrorExc "GoCardless Payout Journal Creation Error" e] }

/-- Function `set_status`: read `resource_type` and
`resource_metadata.reference_doctype`, then route the event through the
three (non-exclusive, sequential) `if` branches. -/
def set_status (event : Json) (w : World) : World × Except PyErr Unit :=
  match pyGetD event "resource_type" (.obj []) with
  | .error e => (w, .error e)
  | .ok resource_type =>
  match pyGetD event "resource_metadata" (.obj []) with
  | .error e => (w, .error e)
  | .ok rm =>
  match pyGetAttr rm "reference_doctype" with
  | .error e => (w, .error e)
  | .ok reference_doctype =>
      match (if resource_type.isStr "mandates" then set_mandate_status event w
             else (w, .ok ())) with
      | (w1, .error e) => (w1, .error e)
      | (w1, .ok _) =>
          match (if resource_type.isStr "payments"
                    && optIsStr reference_doctype "Payment Request" then
                   set_payment_request_status event w1
                 else (w1, .ok ())) with
          | (w2, .error e) => (w2, .error e)
          | (w2, .ok _) =>
              if resource_type.isStr "payouts" then
                if w2.installedApps.contains "erpnext" then
                  (create_payout_journal event w2, .ok ())
                else (w2, .ok ())
              else (w2, .ok ())

/-- Python iteration over a decoded JSON value (`for event in ...`):
lists yield elements, dicts their keys, strings their characters;
scalars raise `TypeError`. -/
def pyIter : Json → Except PyErr (List Json)
  | .arr elems => .ok elems
  | .obj fields => .ok (fields.map fun p => .str p.1)
  | .str s => .ok (s.data.map fun c => .str (String.mk [c]))
  | _ => .error .typeError

/-- The `for event in gocardless_events["events"]: set_status(event)`
loop: events in delivery order, the first escaping exception aborting the
rest. -/
def processEvents : List Json → World → World × Except PyErr Unit
  | [], w => (w, .ok ())
  | e :: rest, w =>
      match set_status e w with
      | (w', .ok _) => processEvents rest w'
      | (w', .error err) => (w', .error err)

/-- The HTTP response of `webhooks`: the bare `return` (no response body)
versus `return 200`. -/
inductive WebhookResponse where
  | noBody
  | ok200
deriving Repr, DecidableEq

/-- Function `webhooks`: no-op when `frappe.request` is absent; raise
`AuthenticationError` when the signature does not verify; decode the body
(`json.loads`, falsy decodes replaced by `[]`), iterate
`gocardless_events["events"]` through `set_status`, log the full batch,
and return 200. -/
def webhooks (hmacHex : String → List Nat → String)
    (jsonLoads : List Nat → Option Json)
    (r : Option Request) (w : World) : World × Except PyErr WebhookResponse :=
  match r with
  | none => (w, .ok .noBody)
  | some req =>
      match authenticate_signature hmacHex req w with
      | (w1, false) => (w1, .error .authenticationError)
      | (w1, true) =>
          match jsonLoads req.rawBody with
          | none => (w1, .error .jsonDecodeError)
          | some decoded =>
              let gocardless_events := if decoded.truthy then decoded else .arr []
              match pySubscript gocardless_events "events" with
              | .error e => (w1, .error e)
              | .ok events_val =>
                  match pyIter events_val with
                  | .error e => (w1, .error e)
                  | .ok events =>
                      match processEvents events w1 with
                      | (w2, .error e) => (w2, .error e)
                      | (w2, .ok _) =>
                          ({ w2 with trace := w2.trace ++
                              [.logError "GoCardless Webhook" gocardless_events] },
                           .ok .ok200)

/-- Journal entries inserted over a run, read off the effect trace. -/
def insertedJournals (w : World) : List JournalEntry :=
  w.trace.filterMap fun e =>
    match e with
    | .insertJournal je => some je
    | _ => none

/-- The shapes of a `mandates` event's `links` that lack a `mandate` key:
the `links` field is absent, or it is a mapping without `"mandate"`, or it
is a sequence of mappings one of which is without `"mandate"`. -/
def mandateLinksBroken (fields : List (String × Json)) : Prop :=
  lookupField fields "links" = none
  ∨ (∃ linkFields, lookupField fields "links" = some (.obj linkFields)
      ∧ lookupField linkFields "mandate" = none)
  ∨ (∃ elems, lookupField fields "links" = some (.arr elems)
      ∧ (∀ x ∈ elems, ∃ linkFields, x = Json.obj linkFields)
      ∧ (∃ linkFields, Json.obj linkFields ∈ elems
          ∧ lookupField linkFields "mandate" = none))

/-- A world with nothing in it. -/
def emptyWorld : World :=
  { secretsCache := none, gocardlessSettings := [], installedApps := [],
    paymentRequests := [], paymentGateways := [], paymentGatewayAccounts := [],
    payouts := [], creditorBankAccounts := [], bankAccounts := [], trace := [] }

/-- A fully configured site holding one live settings document, one
`Payment Request`, one payout of 100.00 with 2.50 of deducted fees, and
the accounts the payout handler resolves. -/
def payoutWorld : World :=
  { secretsCache := some ["k1"],
    gocardlessSettings := [{ name := "GC", use_sandbox := false,
                             fees_account := "Fees - X", webhooks_secret := some "k1" }],
    installedApps := ["frappe", "erpnext"],
    paymentRequests := [("PR1", { status := "Initiated", hasFailedReasonField := false,
                                  failed_reason := none })],
    paymentGateways := [("GoCardless-GC", "GC")],
    paymentGatewayAccounts := [("GoCardless-GC", "GC Clearing - X")],
    payouts := [("PO1", { amount := 10000, deducted_fees := 250,
                          created_at := "2024-01-03T10:00:00Z",
                          arrival_date := "2024-01-05", reference := "REF-1",
                          links_creditor_bank_account := "CB1" })],
    creditorBankAccounts := [("CB1", some "1234")],
    bankAccounts := [{ bank_account_no := "GB001234", account := "Deposit - X" }],
    trace := [] }

/-- A payout event pointing at the `"PO1"` payout. -/
def payoutEvent : Json :=
  .obj [("resource_type", .str "payouts"), ("links", .obj [("payout", .str "PO1")])]

/-- The journal entry the handler builds for the `"PO1"` payout. -/
def payoutJE : JournalEntry :=
  payoutJournalEntry "2024-01-05" "2024-01-03" "REF-1" "Deposit - X" "Fees - X"
    (some "GC Clearing - X") (((10000 : Int) : ℚ) / 100) (((250 : Int) : ℚ) / 100)

/-- A `confirmed` payment event referencing a `Payment Request`. -/
def confirmedEvent (name : String) : Json :=
  .obj [("action", .str "confirmed"),
        ("resource_metadata", .obj [("reference_document", .str name)])]

/-- The comment `set_payment_request_status` builds for a bare `confirmed`
event. -/
def confirmedComment : String :=
  "<strong>GoCardless Event: <em>Confirmed<em></strong>"

/-- A `failed` payment event carrying a failure description. -/
def failedEvent (name desc : String) : Json :=
  .obj [("action", .str "failed"),
        ("details", .obj [("description", .str desc)]),
        ("resource_metadata", .obj [("reference_document", .str name)])]

/-- The comment `set_payment_request_status` builds for a `failed` event
with description `desc`. -/
def failedComment (desc : String) : String :=
  "<strong>GoCardless Event: <em>Failed<em></strong>" ++ ("<br>" ++ desc)

/-- A world whose secret cache is already populated with `["k1"]`. -/
def authedWorld : World := { emptyWorld with secretsCache := some ["k1"] }

/-- A digest function standing in for hex HMAC-SHA256 in concrete runs:
distinct per key and never empty. -/
def hmFixed : String → List Nat → String := fun key _ => "sig-" ++ key

/-- A request carrying the signature `hmFixed` produces for secret `"k1"`. -/
def sigRequest : Request :=
  { headers := [("Webhook-Signature", "sig-k1")], rawBody := [] }

/-- A request with no headers and an empty raw body. -/
def emptyBodyRequest : Request := { headers := [], rawBody := [] }

/-- A `mandates` event with no `links` field at all. -/
def badMandateEvent : Json := .obj [("resource_type", .str "mandates")]

/-- The world after one `confirmed` application to `"PR1"` (initially
`Initiated`). -/
def c4World : World :=
  { emptyWorld with
    paymentRequests := [("PR1", { status := "Initiated", hasFailedReasonField := true,
                                  failed_reason := none })] }

/-- State after the first application of the `confirmed` event. -/
def c4World1 : World := (set_payment_request_status (confirmedEvent "PR1") c4World).1

/-- State after the second application of the same `confirmed` event. -/
def c4World2 : World := (set_payment_request_status (confirmedEvent "PR1") c4World1).1

/-- C1: the three-line journal entry `create_payout_journal` builds for a
payout with `amount = 10000` and `deducted_fees = 250` (minor units) has
`debit(deposit) = 100`, `credit(fees) = 2.5` and
`credit(payment account) = 102.5` as the claim states, but it is not
balanced: the debits sum to `amount = 100` while the credits sum to
`amount + 2·deducted_fees = 105`, so `sum(debits) = sum(credits) =
amount + deducted_fees = 102.5` fails — the fees are posted as a credit
where a balanced entry (and spec §3's "fees debit") needs a debit. -/
theorem payout_journal_unbalanced_on_nonzero_fees :
    insertedJournals (create_payout_journal payoutEvent payoutWorld) = [payoutJE]
    ∧ payoutJE.accounts.map JELine.debit = [100, 0, 0]
    ∧ payoutJE.accounts.map JELine.credit = [0, 5/2, 205/2]
    ∧ payoutJE.totalDebit = 100
    ∧ payoutJE.totalCredit = 105
    ∧ payoutJE.totalDebit ≠ payoutJE.totalCredit
    ∧ payoutJE.totalCredit ≠ 100 + 5/2 := by
  refine ⟨rfl, ?_, ?_, ?_, ?_, ?_, ?_⟩ <;>
    · simp [payoutJE, payoutJournalEntry, JournalEntry.totalDebit, JournalEntry.totalCredit]
      norm_num

/-- C4 counterexample: applying the same `confirmed` event to `"PR1"`
twice is not free of duplicate side effects — the first application
appends the informational comment and the mark-paid call, and the second
application appends the very same comment again, so the second
application is not a no-op. -/
theorem confirmed_event_second_application_not_noop :
    (set_payment_request_status (confirmedEvent "PR1") c4World1).2 = .ok ()
    ∧ c4World1.trace
        = [.addComment "PR1" confirmedComment "GoCardless" "help@gocardless.com",
           .setAsPaid "PR1"]
    ∧ c4World2.trace
        = c4World1.trace
            ++ [.addComment "PR1" confirmedComment "GoCardless" "help@gocardless.com"]
    ∧ c4World2 ≠ c4World1 := by
  refine ⟨rfl, rfl, rfl, fun h => ?_⟩
  have h2 : c4World2.trace
      = c4World1.trace
          ++ [.addComment "PR1" confirmedComment "GoCardless" "help@gocardless.com"] := rfl
  rw [h] at h2
  have hlen := congrArg List.length h2
  simp at hlen

/-- C6 counterexample: a request that passes authentication and whose body
decodes to an object with an `events` field is not always fully processed:
a `mandates` event with no `links` raises `KeyError("links")`, which
escapes the loop, so the batch is never logged and 200 is never returned. -/
theorem webhook_batch_abort_skips_log_and_200 :
    webhooks hmFixed (fun _ => some (.obj [("events", .arr [badMandateEvent])]))
        (some sigRequest) authedWorld
      = (authedWorld, .error (.keyError "links")) := rfl

/-- C7 counterexample: a present request whose raw body is empty is not an
early no-op — with no `Webhook-Signature` header the handler raises an
authentication failure, so an empty body does signal an error. -/
theorem empty_body_request_signals_error :
    emptyBodyRequest.rawBody = []
    ∧ webhooks hmFixed (fun _ => none) (some emptyBodyRequest) authedWorld
        = (authedWorld, .error .authenticationError) := ⟨rfl, rfl⟩

/-- Function `authenticate_signature` only reads: it can at most populate the
secret cache, leaving the trace and every document list unchanged. -/
theorem authenticate_signature_readonly
    (hmacHex : String → List Nat → String) (req : Request) (w : World) :
    (authenticate_signature hmacHex req w).1.trace = w.trace
    ∧ (authenticate_signature hmacHex req w).1.paymentRequests = w.paymentRequests := by
  unfold authenticate_signature get_webhook_keys
  cases getHeader req.headers "Webhook-Signature" with
  | none => exact ⟨rfl, rfl⟩
  | some sig =>
      by_cases hsig : sig = ""
      · simp [hsig]
      · cases hc : w.secretsCache <;> simp [hsig, hc]

/-- C2: when signature verification fails (in particular when the
`Webhook-Signature` header is missing), `webhooks` raises
`AuthenticationError` before parsing the body or dispatching any event:
the trace and the documents are untouched, and the outcome does not
depend on the JSON decoder at all, so zero events are processed and zero
record mutations occur; dispatch can only be reached when verification
returned true. -/
theorem webhooks_auth_failure_aborts_untouched
    (hmacHex : String → List Nat → String)
    (jsonLoads jsonLoads' : List Nat → Option Json)
    (req : Request) (w w1 : World)
    (hauth : authenticate_signature hmacHex req w = (w1, false)) :
    webhooks hmacHex jsonLoads (some req) w = (w1, .error .authenticationError)
    ∧ w1.trace = w.trace
    ∧ w1.paymentRequests = w.paymentRequests
    ∧ webhooks hmacHex jsonLoads (some req) w = webhooks hmacHex jsonLoads' (some req) w := by
  have hro := authenticate_signature_readonly hmacHex req w
  rw [hauth] at hro
  refine ⟨?_, hro.1, hro.2, ?_⟩ <;> simp only [webhooks] <;> rw [hauth]

/-- C2 witness: a request with no `Webhook-Signature` header fails
verification, and `webhooks` on it raises `AuthenticationError` with the
world untouched, independently of the JSON decoder. -/
theorem webhooks_auth_failure_aborts_untouched_witness :
    webhooks hmFixed (fun _ => none) (some emptyBodyRequest) authedWorld
      = (authedWorld, .error .authenticationError)
    ∧ authedWorld.trace = authedWorld.trace
    ∧ authedWorld.paymentRequests = authedWorld.paymentRequests
    ∧ webhooks hmFixed (fun _ => none) (some emptyBodyRequest) authedWorld
        = webhooks hmFixed (fun _ => some .null) (some emptyBodyRequest) authedWorld :=
  webhooks_auth_failure_aborts_untouched hmFixed (fun _ => none) (fun _ => some .null)
    emptyBodyRequest authedWorld authedWorld rfl

/-- C3: with the secret cache holding `secrets`, `authenticate_signature`
returns true exactly when the request carries a non-empty
`Webhook-Signature` header equal to the hex HMAC-SHA256 digest of the raw
body under some secret of the set; it therefore fails closed on an absent
or empty header and on an empty secret set, and it has no side effects
(hex digests of HMAC-SHA256 are 64 characters, so never empty — the
`sig ≠ ""` conjunct is vacuous for the real digest function). -/
theorem authenticate_signature_true_iff_hmac_match
    (hmacHex : String → List Nat → String) (req : Request) (w : World)
    (secrets : List String)
    (hcache : w.secretsCache = some secrets) :
    ((authenticate_signature hmacHex req w).2 = true ↔
        ∃ sig, getHeader req.headers "Webhook-Signature" = some sig ∧ sig ≠ ""
          ∧ ∃ key ∈ secrets, sig = hmacHex key req.rawBody)
    ∧ (authenticate_signature hmacHex req w).1 = w := by
  unfold authenticate_signature get_webhook_keys
  rw [hcache]
  cases hh : getHeader req.headers "Webhook-Signature" with
  | none => simp
  | some sig =>
      by_cases hsig : sig = ""
      · simp [hsig]
      · simp [hsig, List.any_eq_true]

/-- C3 witness: with one cached secret `"k1"`, the request signed with the
digest for `"k1"` satisfies the characterization, and verification does
not change the world. -/
theorem authenticate_signature_true_iff_hmac_match_witness :
    (((authenticate_signature hmFixed sigRequest authedWorld).2 = true ↔
        ∃ sig, getHeader sigRequest.headers "Webhook-Signature" = some sig ∧ sig ≠ ""
          ∧ ∃ key ∈ ["k1"], sig = hmFixed key sigRequest.rawBody)
    ∧ (authenticate_signature hmFixed sigRequest authedWorld).1 = authedWorld) :=
  authenticate_signature_true_iff_hmac_match hmFixed sigRequest authedWorld ["k1"] rfl

/-- C7 (amended): the early no-op applies when the request object itself
is absent — then there is no response body, no error and no mutation — not
when the raw body is empty: a present request (whatever its body) first
goes through signature verification, which raises `AuthenticationError`
when the `Webhook-Signature` header is missing. -/
theorem request_absent_is_noop_empty_body_not_special
    (hmacHex : String → List Nat → String) (jsonLoads : List Nat → Option Json)
    (w : World) (req : Request)
    (hnohdr : getHeader req.headers "Webhook-Signature" = none) :
    webhooks hmacHex jsonLoads none w = (w, .ok .noBody)
    ∧ webhooks hmacHex jsonLoads (some req) w = (w, .error .authenticationError) := by
  refine ⟨rfl, ?_⟩
  simp only [webhooks, authenticate_signature]
  rw [hnohdr]

/-- C7 witness: at the concrete header-less empty-body request, the absent
request is a no-op and the present request raises the authentication
failure. -/
theorem request_absent_is_noop_empty_body_not_special_witness :
    webhooks hmFixed (fun _ => none) none authedWorld = (authedWorld, .ok .noBody)
    ∧ webhooks hmFixed (fun _ => none) (some emptyBodyRequest) authedWorld
        = (authedWorld, .error .authenticationError) :=
  request_absent_is_noop_empty_body_not_special hmFixed (fun _ => none) authedWorld
    emptyBodyRequest rfl

/-- C5: the action-to-disabled mapping is total — for every string action
value, `set_mandate_status` writes `disabled = 0` on the mandate exactly
when the action is one of `pending_customer_approval`,
`pending_submission`, `submitted`, `active`, and `disabled = 1` for every
other string, unrecognized ones included. -/
theorem mandate_disabled_mapping_total (action mandate : String) (w : World) :
    set_mandate_status
        (.obj [("links", .obj [("mandate", .str mandate)]), ("action", .str action)]) w
      = ({ w with trace := w.trace ++
            [.dbSetValue "GoCardless Mandate" (.str mandate) "disabled"
              (if action = "pending_customer_approval" ∨ action = "pending_submission"
                  ∨ action = "submitted" ∨ action = "active" then 0 else 1)] }, .ok ()) := by
  have hmd : mandateDisabled (.str action)
      = (if action = "pending_customer_approval" ∨ action = "pending_submission"
            ∨ action = "submitted" ∨ action = "active" then 0 else 1) := by
    unfold mandateDisabled Json.isStr
    by_cases h1 : action = "pending_customer_approval" <;>
      by_cases h2 : action = "pending_submission" <;>
        by_cases h3 : action = "submitted" <;>
          by_cases h4 : action = "active" <;>
            simp [h1, h2, h3, h4]
  calc set_mandate_status
        (.obj [("links", .obj [("mandate", .str mandate)]), ("action", .str action)]) w
      = ({ w with trace := w.trace ++
            [.dbSetValue "GoCardless Mandate" (.str mandate) "disabled"
              (mandateDisabled (.str action))] }, .ok ()) := rfl
    _ = _ := by rw [hmd]

/-- C6 (amended): once authentication has succeeded and the body decodes
to a truthy value with an `events` field, and provided the dispatch of
every event completes without an escaping exception (payout-event failures
are always caught internally, while mandate and payment-request handler
exceptions escape and abort the batch — see the counterexample), the
endpoint processes all events, then always records the full decoded batch
to the error log and returns HTTP 200, regardless of what the individual
handlers did. -/
theorem webhooks_success_logs_batch_and_returns_200
    (hmacHex : String → List Nat → String) (jsonLoads : List Nat → Option Json)
    (req : Request) (w w1 w2 : World) (decoded events_val : Json)
    (events : List Json)
    (hauth : authenticate_signature hmacHex req w = (w1, true))
    (hparse : jsonLoads req.rawBody = some decoded)
    (htruthy : decoded.truthy = true)
    (hevents : pySubscript decoded "events" = .ok events_val)
    (hiter : pyIter events_val = .ok events)
    (hproc : processEvents events w1 = (w2, .ok ())) :
    webhooks hmacHex jsonLoads (some req) w
      = ({ w2 with trace := w2.trace ++ [.logError "GoCardless Webhook" decoded] },
         .ok .ok200) := by
  simp only [webhooks]
  rw [hauth]
  dsimp only
  rw [hparse]
  dsimp only
  simp only [htruthy, if_true]
  rw [hevents]
  dsimp only
  rw [hiter]
  dsimp only
  rw [hproc]

/-- C6 witness: an authenticated request whose body decodes to
`{"events": []}` is fully processed, logged and answered with 200. -/
theorem webhooks_success_logs_batch_and_returns_200_witness :
    webhooks hmFixed (fun _ => some (.obj [("events", .arr [])])) (some sigRequest)
        authedWorld
      = ({ authedWorld with trace := authedWorld.trace ++
            [.logError "GoCardless Webhook" (.obj [("events", .arr [])])] },
         .ok .ok200) :=
  webhooks_success_logs_batch_and_returns_200 hmFixed
    (fun _ => some (.obj [("events", .arr [])])) sigRequest authedWorld authedWorld
    authedWorld (.obj [("events", .arr [])]) (.arr []) [] rfl rfl rfl rfl rfl rfl

/-- C8: for a `failed` payment event whose target `Payment Request` is not
already `Failed` and whose schema lacks the `failed_reason` column, the
handler appends the comment, writes `status := Failed`, and silently
swallows the `failed_reason` write (no error escapes, the status change is
preserved, and no `failed_reason` write is recorded). -/
theorem str_append_ne_empty (s t : String) (h : s.data ≠ []) : s ++ t ≠ "" := by
  cases s with
  | mk l =>
      cases t with
      | mk m =>
          intro hEq
          have hdata : l ++ m = [] := congrArg String.data hEq
          rcases List.append_eq_nil.mp hdata with ⟨hl, _⟩
          exact h hl

theorem failed_event_sets_status_ignores_missing_schema_field
    (name desc : String) (w : World) (doc : PRDoc)
    (hdoc : lookupPR w.paymentRequests name = some doc)
    (hname : name ≠ "") (hdesc : desc ≠ "")
    (hstatus : doc.status ≠ "Failed")
    (hfield : doc.hasFailedReasonField = false) :
    set_payment_request_status (failedEvent name desc) w
      = ({ w with
            paymentRequests := updatePR w.paymentRequests name { doc with status := "Failed" },
            trace := w.trace ++
              [.addComment name (failedComment desc) "GoCardless" "help@gocardless.com",
               .dbSet name "status" (.str "Failed")] }, .ok ()) := by
  have hcne := str_append_ne_empty
    ("<strong>GoCardless Event: <em>" ++ pyCapitalize "failed" ++ "<em></strong>")
    ("<br>" ++ desc) (by decide)
  simp [set_payment_request_status, prPrelude, failedEvent, pyGetAttr, pyGetD,
    lookupField, actionCommentPiece, pySubscript, optTruthy, Json.truthy, optIsStr,
    Json.isStr, pyStrScalar, dbSetStatus, dbSetFailedReason, failedReasonAttempt,
    failedComment, List.append_assoc, hdoc, hname, hdesc, hstatus, hfield, hcne]
  rfl

/-- C8 witness: a concrete `failed` event against an `Initiated` request
on a schema without `failed_reason` sets the status to Failed with no
error and no `failed_reason` write. -/
theorem failed_event_sets_status_ignores_missing_schema_field_witness :
    set_payment_request_status (failedEvent "PR1" "insufficient funds") payoutWorld
      = ({ payoutWorld with
            paymentRequests := updatePR payoutWorld.paymentRequests "PR1"
              { status := "Failed", hasFailedReasonField := false, failed_reason := none },
            trace := payoutWorld.trace ++
              [.addComment "PR1" (failedComment "insufficient funds") "GoCardless"
                 "help@gocardless.com",
               .dbSet "PR1" "status" (.str "Failed")] }, .ok ()) :=
  failed_event_sets_status_ignores_missing_schema_field "PR1" "insufficient funds"
    payoutWorld { status := "Initiated", hasFailedReasonField := false, failed_reason := none }
    rfl (by decide) (by decide) (by decide) rfl

/-- C4 (amended): applying the same `confirmed` event twice leaves the
status at Paid after the first application and the second application
performs no second mark-paid transition and changes no document — but it
does append the informational comment again, a repeated side effect. -/
theorem confirmed_event_idempotent_status_repeated_comment
    (name : String) (w : World) (doc : PRDoc)
    (hname : name ≠ "")
    (hdoc : lookupPR w.paymentRequests name = some doc) :
    (doc.status ≠ "Paid" →
      set_payment_request_status (confirmedEvent name) w
        = ({ w with
              paymentRequests := updatePR w.paymentRequests name { doc with status := "Paid" },
              trace := w.trace ++
                [.addComment name confirmedComment "GoCardless" "help@gocardless.com",
                 .setAsPaid name] }, .ok ()))
    ∧ (doc.status = "Paid" →
      set_payment_request_status (confirmedEvent name) w
        = ({ w with trace := w.trace ++
              [.addComment name confirmedComment "GoCardless" "help@gocardless.com"] },
           .ok ())) := by
  have hcne := str_append_ne_empty
    ("<strong>GoCardless Event: <em>" ++ pyCapitalize "confirmed")
    "<em></strong>" (by decide)
  constructor <;> intro h <;>
    simp [set_payment_request_status, prPrelude, confirmedEvent, pyGetAttr, pyGetD,
      lookupField, actionCommentPiece, pySubscript, optTruthy, Json.truthy, optIsStr,
      Json.isStr, setAsPaidOp, confirmedComment, List.append_assoc, hdoc, hname, h,
      hcne] <;>
    rfl

/-- C4 (amended) witness: on the concrete `"PR1"` request starting at
`Initiated`, the first application moves the status to Paid with one
comment and one mark-paid call, and an application on the Paid record only
repeats the comment. -/
theorem confirmed_event_idempotent_status_repeated_comment_witness :
    (("Initiated" : String) ≠ "Paid" →
      set_payment_request_status (confirmedEvent "PR1") c4World
        = ({ c4World with
              paymentRequests := updatePR c4World.paymentRequests "PR1"
                { status := "Paid", hasFailedReasonField := true, failed_reason := none },
              trace := c4World.trace ++
                [.addComment "PR1" confirmedComment "GoCardless" "help@gocardless.com",
                 .setAsPaid "PR1"] }, .ok ()))
    ∧ (("Initiated" : String) = "Paid" →
      set_payment_request_status (confirmedEvent "PR1") c4World
        = ({ c4World with trace := c4World.trace ++
              [.addComment "PR1" confirmedComment "GoCardless" "help@gocardless.com"] },
           .ok ())) :=
  confirmed_event_idempotent_status_repeated_comment "PR1" c4World
    { status := "Initiated", hasFailedReasonField := true, failed_reason := none }
    (by decide) rfl

/-- C9: payout-journal failures never propagate.  First, whenever the body
of `create_payout_journal`'s `try` block fails with any exception, the
handler returns normally, merely appending the error-log entry at the
state reached by the failed attempt.  Second, at the webhook level, an
authenticated batch holding one `payouts` event always answers HTTP 200 —
whatever the payout pipeline did or failed to do — so a payout journal
failure never affects the webhook response. -/
theorem payout_errors_caught_logged_never_propagate :
    (∀ (event : Json) (w : World) (err : PyErr),
        (create_payout_journal_attempt event w).2 = .error err →
        create_payout_journal event w
          = { (create_payout_journal_attempt event w).1 with
              trace := (create_payout_journal_attempt event w).1.trace
                ++ [.logErrorExc "GoCardless Payout Journal Creation Error" err] })
    ∧ (∀ (hmacHex : String → List Nat → String) (jsonLoads : List Nat → Option Json)
         (req : Request) (w w1 : World) (extra : List (String × Json)),
        authenticate_signature hmacHex req w = (w1, true) →
        jsonLoads req.rawBody
          = some (.obj [("events",
              .arr [.obj (("resource_type", .str "payouts") :: extra)])]) →
        lookupField extra "resource_metadata" = none →
        ∃ w2, webhooks hmacHex jsonLoads (some req) w = (w2, .ok .ok200)) := by
  constructor
  · intro event w err herr
    rcases hA : create_payout_journal_attempt event w with ⟨w', res⟩
    rw [hA] at herr
    dsimp only at herr
    subst herr
    simp only [create_payout_journal, hA]
  · intro hmacHex jsonLoads req w w1 extra hauth hparse hrm
    simp only [webhooks]
    rw [hauth]
    dsimp only
    rw [hparse]
    dsimp only
    by_cases hw : "erpnext" ∈ w1.installedApps <;>
      simp [pySubscript, lookupField, pyIter, processEvents, set_status, pyGetD,
        pyGetAttr, Json.isStr, Json.truthy, hrm, hw]

/-- C9 witness: the first part applied to a `null` event (whose attempt
fails with `AttributeError`), and the second part applied to an
authenticated concrete one-payout batch, which answers 200. -/
theorem payout_errors_caught_logged_never_propagate_witness :
    (create_payout_journal .null emptyWorld
      = { (create_payout_journal_attempt .null emptyWorld).1 with
          trace := (create_payout_journal_attempt .null emptyWorld).1.trace
            ++ [.logErrorExc "GoCardless Payout Journal Creation Error" .attributeError] })
    ∧ (∃ w2, webhooks hmFixed
        (fun _ => some (.obj [("events", .arr [.obj [("resource_type", .str "payouts")]])]))
        (some sigRequest) authedWorld = (w2, .ok .ok200)) :=
  ⟨payout_errors_caught_logged_never_propagate.1 .null emptyWorld .attributeError rfl,
   payout_errors_caught_logged_never_propagate.2 hmFixed
     (fun _ => some (.obj [("events", .arr [.obj [("resource_type", .str "payouts")]])]))
     sigRequest authedWorld authedWorld [] rfl rfl rfl⟩

/-- When every element of a `links` list is a mapping and some element
lacks `"mandate"`, the collection loop fails with `KeyError("mandate")`. -/
theorem collectMandates_broken (elems : List Json)
    (hall : ∀ x ∈ elems, ∃ linkFields, x = Json.obj linkFields)
    (hbad : ∃ linkFields, Json.obj linkFields ∈ elems
        ∧ lookupField linkFields "mandate" = none) :
    collectMandates elems = .error (.keyError "mandate") := by
  induction elems with
  | nil =>
      rcases hbad with ⟨gs, hmem, _⟩
      cases hmem
  | cons x rest ih =>
      obtain ⟨gs, rfl⟩ := hall x (List.mem_cons_self x rest)
      cases hm : lookupField gs "mandate" with
      | none => simp [collectMandates, linkMandate, pySubscript, hm]
      | some m =>
          rcases hbad with ⟨gs2, hmem, hnone⟩
          rcases List.mem_cons.mp hmem with heq | hmem2
          · injection heq with h2
            rw [h2] at hnone
            rw [hm] at hnone
            cases hnone
          · have hres := ih (fun y hy => hall y (List.mem_cons_of_mem _ hy))
              ⟨gs2, hmem2, hnone⟩
            simp [collectMandates, linkMandate, pySubscript, hm, hres]

/-- A `mandates` event whose `links` lack a `mandate` key makes
`set_mandate_status` raise a `KeyError` before any mandate write. -/
theorem set_mandate_status_broken (fields : List (String × Json)) (w : World)
    (hbroken : mandateLinksBroken fields) :
    ∃ key, set_mandate_status (.obj fields) w = (w, .error (.keyError key)) := by
  rcases hbroken with hnone | ⟨lf, hl, hm⟩ | ⟨elems, hl, hall, hbad⟩
  · exact ⟨"links", by simp [set_mandate_status, pySubscript, hnone]⟩
  · exact ⟨"mandate", by simp [set_mandate_status, pySubscript, extractMandates, hl, hm]⟩
  · exact ⟨"mandate", by simp [set_mandate_status, pySubscript, extractMandates, hl,
      collectMandates_broken elems hall hbad]⟩

/-- C10: for every `mandates` event whose `links` field is absent, or
whose `links` mapping (or some mapping in the `links` sequence) lacks a
`mandate` key, the mandate handler raises a `KeyError` at an unchanged
state, and at the webhook level that exception escapes the dispatch loop:
the remaining events of the batch are not processed, nothing is mutated or
logged, and HTTP 200 is not returned. -/
theorem broken_mandate_links_raise_keyerror_abort_batch :
    (∀ (fields : List (String × Json)) (w : World), mandateLinksBroken fields →
        ∃ key, set_mandate_status (.obj fields) w = (w, .error (.keyError key)))
    ∧ (∀ (hmacHex : String → List Nat → String) (jsonLoads : List Nat → Option Json)
         (req : Request) (w w1 : World)
         (fields : List (String × Json)) (rest : List Json),
        authenticate_signature hmacHex req w = (w1, true) →
        jsonLoads req.rawBody = some (.obj [("events", .arr (.obj fields :: rest))]) →
        lookupField fields "resource_type" = some (.str "mandates") →
        lookupField fields "resource_metadata" = none →
        mandateLinksBroken fields →
        ∃ key, webhooks hmacHex jsonLoads (some req) w
          = (w1, .error (.keyError key))) := by
  refine ⟨set_mandate_status_broken, ?_⟩
  intro hmacHex jsonLoads req w w1 fields rest hauth hparse hrt hrm hbroken
  obtain ⟨key, hks⟩ := set_mandate_status_broken fields w1 hbroken
  refine ⟨key, ?_⟩
  simp only [webhooks]
  rw [hauth]
  dsimp only
  rw [hparse]
  dsimp only
  simp [pySubscript, lookupField, pyIter, processEvents, set_status, pyGetD, pyGetAttr,
    Json.isStr, Json.truthy, hrt, hrm, hks]

/-- C10 witness: both parts at a concrete `mandates` event with no `links`
field — the handler raises a `KeyError` and the authenticated one-event
batch ends in that error instead of HTTP 200. -/
theorem broken_mandate_links_raise_keyerror_abort_batch_witness :
    (∃ key, set_mandate_status (.obj [("resource_type", .str "mandates")]) emptyWorld
        = (emptyWorld, .error (.keyError key)))
    ∧ (∃ key, webhooks hmFixed
        (fun _ => some (.obj [("events", .arr [.obj [("resource_type", .str "mandates")]])]))
        (some sigRequest) authedWorld = (authedWorld, .error (.keyError key))) :=
  ⟨broken_mandate_links_raise_keyerror_abort_batch.1 [("resource_type", .str "mandates")]
      emptyWorld (Or.inl rfl),
   broken_mandate_links_raise_keyerror_abort_batch.2 hmFixed
      (fun _ => some (.obj [("events", .arr [.obj [("resource_type", .str "mandates")]])]))
      sigRequest authedWorld authedWorld [("resource_type", .str "mandates")] [] rfl rfl
      rfl rfl (Or.inl rfl)⟩

end GocardlessWebhooks
